import Mathlib

/-!
Shallow embedding of the SLA/escalation core of the `sillicon` ticketing
application, and proofs about it.

Source files embedded here:
- `server/models/Ticket.js` (schema defaults, `slaStatus` and `timeRemaining`
  virtuals, `canBeModified`, the pre-save version hook);
- `server/routes/tickets` (`POST /api/tickets`, `PATCH /api/tickets/:id`);
- `server/services/supportBotService.js` (the `SLAService` class:
  `checkSLAStatus`, `checkEscalations`, `handleSLAWarning`, `handleSLABreach`,
  `escalateTicket`, `calculateSLADueDate`, `updateTicketSLA`);
- `server/services/notificationService.js` (`getNotifications`,
  `notifySLAWarning`, `notifySLABreach`);
- `server/services/workflowService.js` (`executeRules`, the default rule
  registry, `buildAction`).

Timestamps are integers in milliseconds (JS `Date.getTime()`), time budgets
are integers in hours, exactly as in the source.
-/

namespace Sillicon

/-- Milliseconds in one hour, the conversion factor `60 * 60 * 1000` used
throughout the source. -/
def msPerHour : Int := 3600000

/-- Ticket status enum of `Ticket.js` (`open`, `in_progress`, `resolved`,
`closed`, `cancelled`); `opened` stands for the source's `open`, which is a
Lean keyword. -/
inductive Status
| opened
| in_progress
| resolved
| closed
| cancelled
deriving DecidableEq, Repr

/-- Ticket priority enum of `Ticket.js` (`low`, `medium`, `high`, `urgent`). -/
inductive Priority
| low
| medium
| high
| urgent
deriving DecidableEq, Repr

/-- The string stored for a priority value (the schema stores priorities as
strings). -/
def Priority.toStr : Priority → String
| .low => "low"
| .medium => "medium"
| .high => "high"
| .urgent => "urgent"

/-- The `sla` sub-document of `Ticket.js` (lines 46-69): `responseTime` and
`resolutionTime` in hours, `firstResponseAt` / `resolvedAt` nullable
timestamps, `dueDate` a timestamp. -/
structure SlaRecord where
  responseTime : Int
  resolutionTime : Int
  firstResponseAt : Option Int
  resolvedAt : Option Int
  dueDate : Int
deriving DecidableEq, Repr

/-- An `internalNotes` entry of `Ticket.js` (lines 94-104); `addedBy = none`
is the system-escalation sentinel (`addedBy: null`). -/
structure NoteEntry where
  note : String
  addedBy : Option Nat
  addedAt : Int
deriving DecidableEq, Repr

/-- The ticket document, restricted to the fields the SLA/workflow core reads
or writes. `createdAt` / `updatedAt` are the mongoose `timestamps` fields. -/
structure Ticket where
  id : Nat
  title : String
  status : Status
  priority : Priority
  createdBy : Nat
  assignedTo : Option Nat
  assignedAt : Option Int
  tags : List String
  sla : SlaRecord
  version : Int
  internalNotes : List NoteEntry
  createdAt : Int
  updatedAt : Int
deriving DecidableEq, Repr

/-- The derived SLA classification values of the `slaStatus` virtual. -/
inductive SlaStatus
| completed
| response_breach
| resolution_breach
| warning
| on_time
deriving DecidableEq, Repr

/-- The `slaStatus` virtual of `Ticket.js` (lines 129-152): completed for
resolved/closed, then response-breach, resolution-breach, warning, on-time,
tested in that order. -/
def slaStatus (now : Int) (t : Ticket) : SlaStatus :=
  if t.status = .resolved ∨ t.status = .closed then
    .completed
  else if (match t.sla.firstResponseAt with
           | some fr => decide (now > fr + t.sla.responseTime * msPerHour)
           | none => false) then
    .response_breach
  else if now > t.sla.dueDate then
    .resolution_breach
  else if now > t.sla.dueDate - 24 * msPerHour then
    .warning
  else
    .on_time

/-- First-match evaluation of an ordered list of (condition, result) pairs:
the result of the earliest true condition, else the default. Used to state
the spec's "priority-ordered classifier" reading of `slaStatus`. -/
def firstMatch : List (Bool × SlaStatus) → SlaStatus → SlaStatus
| [], dflt => dflt
| (c, r) :: rest, dflt => if c then r else firstMatch rest dflt

/-- The `slaStatus` classifier as the spec words it (§4.3): a priority-ordered
rule list over `(now, status, dueDate, firstResponseAt, responseBudget)`,
earlier rules taking precedence, defaulting to `on_time`. -/
def slaStatusSpec (now : Int) (status : Status) (dueDate : Int)
    (firstResponseAt : Option Int) (responseBudget : Int) : SlaStatus :=
  firstMatch
    [ (status == .resolved || status == .closed, .completed),
      (match firstResponseAt with
       | some fr => decide (now > fr + responseBudget * msPerHour)
       | none => false, .response_breach),
      (decide (now > dueDate), .resolution_breach),
      (decide (now > dueDate - 24 * msPerHour), .warning) ]
    .on_time

/-- Computes `Math.ceil(remaining / 3600000)` for a positive integer `remaining`,
written with integer division. -/
def ceilHours (remaining : Int) : Int :=
  (remaining + (msPerHour - 1)) / msPerHour

/-- The `timeRemaining` virtual of `Ticket.js` (lines 155-165): null for
resolved/closed, otherwise the hours until `dueDate`, rounded up, floored
at 0. -/
def timeRemaining (now : Int) (t : Ticket) : Option Int :=
  if t.status = .resolved ∨ t.status = .closed then
    none
  else
    let remaining := t.sla.dueDate - now
    some (if remaining > 0 then ceilHours remaining else 0)

/-- Ticket creation: `POST /api/tickets` builds a `Ticket` from title,
category, optional priority, tags and creator, and saves it; every other
field takes the `Ticket.js` schema default — `status` "open", `priority`
"medium", `sla.responseTime` 24, `sla.resolutionTime` 72, `version` 0, and
`sla.dueDate = Date.now() + this.sla.resolutionTime * 60 * 60 * 1000`
(lines 63-68), where `resolutionTime` is still its default 72 because the
route never sets it. -/
def createTicket (now : Int) (id : Nat) (title : String)
    (priority : Option Priority) (tags : List String) (createdBy : Nat) :
    Ticket :=
  { id := id
    title := title
    status := .opened
    priority := priority.getD .medium
    createdBy := createdBy
    assignedTo := none
    assignedAt := none
    tags := tags
    sla :=
      { responseTime := 24
        resolutionTime := 72
        firstResponseAt := none
        resolvedAt := none
        dueDate := now + 72 * msPerHour }
    version := 0
    internalNotes := []
    createdAt := now
    updatedAt := now }

/-- The priority → resolution-budget table of
`SLAService.calculateSLADueDate` (supportBotService.js lines 608-617):
urgent 2h, high 8h, medium 24h, low 72h, and `slaHours[priority] ||
slaHours['medium']` falls back to 24h on an unrecognized key. -/
def slaHoursFor (priority : String) : Int :=
  if priority = "urgent" then 2
  else if priority = "high" then 8
  else if priority = "medium" then 24
  else if priority = "low" then 72
  else 24

/-- A priority key outside the table of `slaHoursFor`. -/
def unrecognizedKey : String := "unrecognized"

/-- Embeds `SLAService.calculateSLADueDate(priority, createdAt)` (supportBotService.js
lines 608-618): `createdAt` plus the priority's resolution budget. -/
def calculateSLADueDate (priority : String) (createdAt : Int) : Int :=
  createdAt + slaHoursFor priority * msPerHour

/-- Embeds `ticket.save()` on an already-persisted, modified document: the
`Ticket.js` pre-save hook (lines 176-181) bumps `version` by 1 (the document
is modified and not new), and mongoose `timestamps` refresh `updatedAt`. -/
def save (now : Int) (t : Ticket) : Ticket :=
  { t with version := t.version + 1, updatedAt := now }

/-- Embeds `SLAService.updateTicketSLA(ticketId, newPriority)` (supportBotService.js
lines 621-638): sets `sla.dueDate = calculateSLADueDate(newPriority,
ticket.createdAt)` — the original creation time — and the new priority, then
saves. Dead code: no caller in the repository invokes it. -/
def updateTicketSLA (now : Int) (t : Ticket) (newPriority : Priority) :
    Ticket :=
  save now
    { t with
      priority := newPriority
      sla :=
        { t.sla with
          dueDate := calculateSLADueDate newPriority.toStr t.createdAt } }

/-- The `change_priority` case of `WorkflowService.buildAction`
(workflowService.js lines 194-197): set `ticket.priority` and save; no other
field (in particular not `sla.dueDate`) is touched. -/
def changePriorityAction (now : Int) (value : Priority) (t : Ticket) :
    Ticket :=
  save now { t with priority := value }

/-- Actor roles checked by `Ticket.canBeModified` (Ticket.js lines 168-173). -/
inductive Role
| admin
| agent
| user
deriving DecidableEq, Repr

/-- Embeds `Ticket.canBeModified(userRole, userId)` (Ticket.js lines 168-173): admin
always; agent when the ticket is unassigned or assigned to them; the creator
only while the ticket is open. -/
def canBeModified (t : Ticket) (role : Role) (userId : Nat) : Bool :=
  match role with
  | .admin => true
  | .agent => t.assignedTo == some userId || t.assignedTo == none
  | .user => t.createdBy == userId && t.status == .opened

/-- The body of a `PATCH /api/tickets/:id` request after validation:
`version` plus the optional updatable fields. `assignedTo = some none`
models an explicit `null` in the body, `none` an absent key. -/
structure UpdateData where
  title : Option String := none
  status : Option Status := none
  priority : Option Priority := none
  assignedTo : Option (Option Nat) := none
  tags : Option (List String) := none
deriving DecidableEq, Repr

/-- Failure responses of the `PATCH /api/tickets/:id` handler: 403 when
`canBeModified` rejects the actor, 409 (`VersionConflict`, carrying the
current stored version) when the supplied version is stale. -/
inductive PatchError
| forbidden
| versionConflict (currentVersion : Int)
deriving DecidableEq, Repr

/-- The `PATCH /api/tickets/:id` handler (ticket routes, lines 321-396):
permission check, optimistic-locking check against the stored version, then
the status-change bookkeeping (`sla.firstResponseAt` backfilled on any status
change, `sla.resolvedAt` stamped on a change to resolved/closed), the
`assignedAt` bookkeeping, and a `findByIdAndUpdate` applying the update.
`version` is destructured out of the body and `findByIdAndUpdate` bypasses
the pre-save hook, so the stored `version` is not changed; mongoose
timestamps refresh `updatedAt`. -/
def patchTicket (now : Int) (role : Role) (userId : Nat) (reqVersion : Int)
    (upd : UpdateData) (t : Ticket) : Except PatchError Ticket :=
  if ¬ canBeModified t role userId then
    .error .forbidden
  else if t.version ≠ reqVersion then
    .error (.versionConflict t.version)
  else
    let statusChanged :=
      match upd.status with
      | some s => s != t.status
      | none => false
    let fra :=
      if statusChanged then some (t.sla.firstResponseAt.getD now)
      else t.sla.firstResponseAt
    let resAt :=
      if statusChanged &&
         (upd.status == some .resolved || upd.status == some .closed)
      then some now
      else t.sla.resolvedAt
    let asgAt :=
      match upd.assignedTo with
      | none => t.assignedAt
      | some (some a) =>
        if t.assignedTo ≠ some a then some now else t.assignedAt
      | some none => none
    .ok
      { t with
        title := upd.title.getD t.title
        status := upd.status.getD t.status
        priority := upd.priority.getD t.priority
        assignedTo := upd.assignedTo.getD t.assignedTo
        assignedAt := asgAt
        tags := upd.tags.getD t.tags
        sla := { t.sla with firstResponseAt := fra, resolvedAt := resAt }
        updatedAt := now }

/-- The ticket stored after a `PATCH /api/tickets/:id` request: the updated
document on success, the untouched document when the handler returned an
error before `findByIdAndUpdate`. -/
def storedAfterPatch (now : Int) (role : Role) (userId : Nat)
    (reqVersion : Int) (upd : UpdateData) (t : Ticket) : Ticket :=
  match patchTicket now role userId reqVersion upd t with
  | .ok t2 => t2
  | .error _ => t

/-- A stored notification, restricted to the fields the SLA dedup logic reads
(`Notification`: `user`, `type`, `ticket`, `createdAt`). -/
structure Notif where
  user : Nat
  type : String
  ticketId : Option Nat
  createdAt : Int
deriving DecidableEq, Repr

/-- Builds the notification document `createNotification(userId, type, …,
{ticketId})` stores. -/
def mkNotif (user : Nat) (type : String) (ticketId : Option Nat)
    (createdAt : Int) : Notif :=
  { user := user, type := type, ticketId := ticketId, createdAt := createdAt }

/-- The notification `type` strings the SLA monitor writes and tests. -/
def slaWarningKind : String := "sla_warning"

/-- See `slaWarningKind`. -/
def slaBreachKind : String := "sla_breach"

/-- See `slaWarningKind`. -/
def ticketEscalatedKind : String := "ticket_escalated"

/-- The notification log, in creation (chronological) order; each
`createNotification` call appends. -/
abbrev NotifLog := List Notif

/-- Embeds `getNotifications(userId, with limit 1)` of notificationService.js (lines
111-138) sorts the user's notifications by `createdAt` descending and takes
one: the user's most recently created notification (the log is chronological,
so its last matching entry). -/
def latestNotifFor (log : NotifLog) (userId : Nat) : Option Notif :=
  (List.filter (fun n => n.user == userId) log).getLast?

/-- The dedup test of `SLAService.handleSLAWarning` (supportBotService.js
lines 526-537): the creator's single most recent notification is an
`sla_warning` for this very ticket created within the last hour. -/
def hasRecentWarning (log : NotifLog) (now : Int) (t : Ticket) : Bool :=
  match latestNotifFor log t.createdBy with
  | some n =>
    n.type == slaWarningKind && n.ticketId == some t.id &&
      decide (n.createdAt > now - msPerHour)
  | none => false

/-- Embeds `notificationService.notifySLAWarning(ticket)` (lines 273-295): one
`sla_warning` notification to the creator, then one to the assignee when the
ticket is assigned. -/
def notifySLAWarning (log : NotifLog) (now : Int) (t : Ticket) : NotifLog :=
  let log1 := log ++ [mkNotif t.createdBy slaWarningKind (some t.id) now]
  match t.assignedTo with
  | some a => log1 ++ [mkNotif a slaWarningKind (some t.id) now]
  | none => log1

/-- Embeds `SLAService.handleSLAWarning(ticket)` (supportBotService.js lines
525-542): skip when the dedup test fires, otherwise send the warning
notifications. -/
def handleSLAWarning (log : NotifLog) (now : Int) (t : Ticket) : NotifLog :=
  if hasRecentWarning log now t then log else notifySLAWarning log now t

/-- The dedup test of `SLAService.handleSLABreach` (lines 545-556): the
creator's single most recent notification is an `sla_breach` for this ticket
created within the last two hours. -/
def hasRecentBreach (log : NotifLog) (now : Int) (t : Ticket) : Bool :=
  match latestNotifFor log t.createdBy with
  | some n =>
    n.type == slaBreachKind && n.ticketId == some t.id &&
      decide (n.createdAt > now - 2 * msPerHour)
  | none => false

/-- Watcher list of `notifySLABreach` (notificationService.js lines 297-309):
creator, assignee when set, then all active admins, de-duplicated keeping
first occurrence (`[...new Set(watchers)]`). -/
def breachWatchers (admins : List Nat) (t : Ticket) : List Nat :=
  (t.createdBy :: (match t.assignedTo with
                   | some a => [a]
                   | none => []) ++ admins).dedup

/-- Embeds `notificationService.notifySLABreach(ticket)` (lines 297-327): one
`sla_breach` notification per unique watcher, in watcher order. -/
def notifySLABreach (log : NotifLog) (now : Int) (admins : List Nat)
    (t : Ticket) : NotifLog :=
  log ++ (breachWatchers admins t).map
    (fun w => mkNotif w slaBreachKind (some t.id) now)

/-- The internal system note `SLAService.escalateTicket` appends (lines
575-581): author `null` (the system sentinel), stamped with the current
time. -/
def escalationNote (now : Int) : NoteEntry :=
  { note := "Ticket escalated due to SLA breach or inactivity. Priority updated to urgent."
    addedBy := none
    addedAt := now }

/-- Embeds `SLAService.escalateTicket(ticket)` (supportBotService.js lines 566-605):
if the priority is not already urgent, set it to urgent and save; append the
system escalation note and save; then create one `ticket_escalated`
notification per active admin. Returns the updated ticket and the
notifications created. -/
def escalateTicket (now : Int) (admins : List Nat) (t : Ticket) :
    Ticket × List Notif :=
  let t1 := if t.priority ≠ .urgent then save now { t with priority := .urgent } else t
  let t2 := save now { t1 with internalNotes := t1.internalNotes ++ [escalationNote now] }
  (t2, admins.map (fun a => mkNotif a ticketEscalatedKind (some t.id) now))

/-- Embeds `SLAService.handleSLABreach(ticket)` (lines 544-564): when the dedup test
does not fire, send the breach notifications and then auto-escalate the
ticket. Returns the notification log and the stored ticket. -/
def handleSLABreach (log : NotifLog) (now : Int) (admins : List Nat)
    (t : Ticket) : NotifLog × Ticket :=
  if hasRecentBreach log now t then (log, t)
  else
    (notifySLABreach log now admins t ++ (escalateTicket now admins t).2,
     (escalateTicket now admins t).1)

/-- First escalation criterion of `SLAService.checkEscalations` (lines
500-504): open, unassigned, created more than 24 hours ago. -/
def crit1 (now : Int) (t : Ticket) : Bool :=
  t.status == .opened && t.assignedTo == none &&
    decide (t.createdAt < now - 24 * msPerHour)

/-- Second escalation criterion of `SLAService.checkEscalations` (lines
511-515): open or in-progress, priority high or urgent, not updated for more
than 4 hours. -/
def crit2 (now : Int) (t : Ticket) : Bool :=
  (t.status == .opened || t.status == .in_progress) &&
    (t.priority == .high || t.priority == .urgent) &&
    decide (t.updatedAt < now - 4 * msPerHour)

/-- One hourly pass of `SLAService.checkEscalations` (supportBotService.js
lines 495-523): query the unassigned-and-stale tickets and escalate each,
then query the stale-high-priority tickets against the now-updated store and
escalate each. Each loop iteration reads and writes only its own document,
so the loops are embedded as pointwise updates of the store; the
notifications are collected per matched ticket in scan order. -/
def checkEscalations (now : Int) (admins : List Nat) (store : List Ticket) :
    List Ticket × List Notif :=
  let store1 := store.map
    (fun t => if crit1 now t then (escalateTicket now admins t).1 else t)
  let notifs1 := (store.filter (crit1 now)).flatMap
    (fun t => (escalateTicket now admins t).2)
  let store2 := store1.map
    (fun t => if crit2 now t then (escalateTicket now admins t).1 else t)
  let notifs2 := (store1.filter (crit2 now)).flatMap
    (fun t => (escalateTicket now admins t).2)
  (store2, notifs1 ++ notifs2)

/-- Sample error messages for the fault-containment runs below. -/
def boomMsg : String := "boom"

/-- See `boomMsg`. -/
def dbDownMsg : String := "db down"

/-- One registry entry as `WorkflowService.executeRules` sees it: its name,
whether it survives the trigger filter and its condition evaluates true on
the ticket at hand, and the outcome of running its action (`.error` models
the action throwing). -/
structure RuleRun where
  name : String
  matched : Bool
  action : Except String Unit
deriving Repr

/-- Embeds `WorkflowService.executeRules(ticket, trigger)` (workflowService.js lines
105-120): iterate the registry in insertion order, run each matched rule's
action; the single `try` wraps the whole loop, so a throwing action is caught
and logged at that level. Returns the names of the rules whose action ran and
the logged error, if any. -/
def executeRulesRun : List RuleRun → List String × Option String
| [] => ([], none)
| r :: rest =>
  if r.matched then
    match r.action with
    | .ok _ =>
      let (ran, err) := executeRulesRun rest
      (r.name :: ran, err)
    | .error e => ([r.name], some e)
  else
    executeRulesRun rest

/-- One ticket of a monitor scan batch: its id and the outcome of processing
it (`.error` models `handleSLAWarning`/`handleSLABreach` throwing). -/
structure TicketRun where
  id : Nat
  outcome : Except String Unit
deriving Repr

/-- A loop of `SLAService.checkSLAStatus` (supportBotService.js lines
464-493): process each queried ticket in order; the single `try` wraps the
whole scan, so a per-ticket error is caught and logged at that level. Returns
the ids of the tickets processed and the logged error, if any. -/
def scanRun : List TicketRun → List Nat × Option String
| [] => ([], none)
| t :: rest =>
  match t.outcome with
  | .ok _ =>
    let (done, err) := scanRun rest
    (t.id :: done, err)
  | .error e => ([t.id], some e)

/-- The trigger filter of `executeRules` (workflowService.js line 108):
`if (rule.trigger && rule.trigger !== trigger) continue` — a rule is skipped
only when its trigger is truthy and differs, so an absent trigger (and the
falsy empty string) matches every trigger value. -/
def triggerMatches (ruleTrigger : Option String) (trigger : String) : Bool :=
  match ruleTrigger with
  | none => true
  | some rt => rt == "" || rt == trigger

/-- The names of the four rules `WorkflowService`'s constructor registers
(workflowService.js lines 13-92), in insertion order. -/
def defaultRuleNames : List String :=
  ["auto_assign_technical", "escalate_high_priority",
   "auto_close_inactive", "auto_close_resolved"]

/-- The default registry as (name, trigger) pairs: none of the four default
rule objects carries a `trigger` field. -/
def defaultRules : List (String × Option String) :=
  defaultRuleNames.map (fun n => (n, none))

/-- The rules a call `executeRules(ticket, trigger)` evaluates (i.e. does not
skip at the trigger filter), in registry order. -/
def evaluatedRules (registry : List (String × Option String))
    (trigger : String) : List String :=
  (registry.filter (fun r => triggerMatches r.2 trigger)).map (fun r => r.1)

/-- The replacement title used in the PATCH evaluations below. -/
def retitledTitle : String := "A retitled sample"

/-- A freshly created sample ticket (creator 5, default priority medium),
used as concrete input in several evaluations below. -/
def sampleTicket : Ticket := createTicket 0 1 "A sample ticket" (some .medium) [] 5

/-- Replaces a ticket's `sla.dueDate`. -/
def withDueDate (d : Int) (t : Ticket) : Ticket :=
  { t with sla := { t.sla with dueDate := d } }

/-- The warning query of `SLAService.checkSLAStatus` (lines 469-475): status
open or in_progress and `sla.dueDate` between one and two hours from now. -/
def inWarningWindow (now : Int) (t : Ticket) : Bool :=
  (t.status == .opened || t.status == .in_progress) &&
    decide (now + msPerHour ≤ t.sla.dueDate) &&
    decide (t.sla.dueDate ≤ now + 2 * msPerHour)

/-- The warning half of one `checkSLAStatus` scan (lines 469-479): run
`handleSLAWarning` on each ticket of the warning query, in order. -/
def warningScan (log : NotifLog) (now : Int) (store : List Ticket) :
    NotifLog :=
  (store.filter (inWarningWindow now)).foldl
    (fun lg t => handleSLAWarning lg now t) log

/-- Two tickets of the same creator (user 1), both due 90 minutes after
creation, so both sit in the warning window of the scans below. -/
def c7Store : List Ticket :=
  [withDueDate 5400000 (createTicket 0 1 "First ticket of user one" none [] 1),
   withDueDate 5400000 (createTicket 0 2 "Second ticket of user one" none [] 1)]

/-- The notification log after two warning scans over `c7Store`, 10 minutes
apart. -/
def c7FinalLog : NotifLog := warningScan (warningScan [] 0 c7Store) 600000 c7Store

/-- An open, unassigned ticket created at time 0, qualifying for escalation
at 25 hours. -/
def escSample : Ticket := createTicket 0 1 "A neglected ticket" none [] 5

end Sillicon

namespace Sillicon

/-- C3: `slaStatus` is exactly the spec's priority-ordered classifier over
`(now, status, dueDate, firstResponseAt, responseBudget)`: resolved/closed →
completed; else firstResponseAt set and now past it plus the response budget
→ response_breach; else now past dueDate → resolution_breach; else now past
dueDate − 24h → warning; else on_time, earlier rules taking precedence. -/
theorem slaStatus_eq_spec_classifier (now : Int) (t : Ticket) :
    slaStatus now t =
      slaStatusSpec now t.status t.sla.dueDate t.sla.firstResponseAt
        t.sla.responseTime := by
  cases hfr : t.sla.firstResponseAt with
  | none =>
    cases hst : t.status <;>
      simp [slaStatus, slaStatusSpec, firstMatch, hfr, hst]
  | some fr =>
    cases hst : t.status <;>
      simp [slaStatus, slaStatusSpec, firstMatch, hfr, hst]

/-- C9 counterexample: a cancelled ticket (72 hours before its due date) is
classified `on_time` with 72 hours remaining — its SLA computation is not
frozen: `slaStatus` is not `completed` and `timeRemaining` is not null. -/
theorem cancelled_ticket_not_frozen :
    slaStatus 0 { sampleTicket with status := .cancelled } = .on_time ∧
    slaStatus 0 { sampleTicket with status := .cancelled } ≠ .completed ∧
    timeRemaining 0 { sampleTicket with status := .cancelled } = some 72 ∧
    timeRemaining 0 { sampleTicket with status := .cancelled } ≠ none := by
  refine ⟨rfl, by decide, rfl, by decide⟩

/-- C9 (amended): SLA computation is frozen exactly for the statuses
`resolved` and `closed`: there `slaStatus` is `completed` and `timeRemaining`
is null; a `cancelled` ticket is not frozen. -/
theorem sla_frozen_for_resolved_or_closed (now : Int) (t : Ticket)
    (h : t.status = .resolved ∨ t.status = .closed) :
    slaStatus now t = .completed ∧ timeRemaining now t = none := by
  constructor
  · unfold slaStatus
    rw [if_pos h]
  · unfold timeRemaining
    rw [if_pos h]

/-- Witness for the amended C9 at a concrete resolved ticket. -/
theorem sla_frozen_for_resolved_or_closed_witness :
    slaStatus 0 { sampleTicket with status := .resolved } = .completed ∧
    timeRemaining 0 { sampleTicket with status := .resolved } = none :=
  sla_frozen_for_resolved_or_closed 0 _ (Or.inl rfl)

/-- C2 counterexample: a ticket created with priority `urgent` gets
`dueDate` = creation time + 72 hours (the schema default budget), not
creation time + 2 hours as the priority table prescribes. -/
theorem created_urgent_ignores_priority_budget :
    (createTicket 0 1 "An urgent sample" (some .urgent) [] 5).sla.dueDate =
      72 * msPerHour ∧
    (createTicket 0 1 "An urgent sample" (some .urgent) [] 5).sla.dueDate ≠
      calculateSLADueDate (Priority.toStr .urgent) 0 ∧
    calculateSLADueDate (Priority.toStr .urgent) 0 = 2 * msPerHour := by
  refine ⟨rfl, by decide, rfl⟩

/-- C2 (amended): every newly created ticket has status open, priority
defaulting to medium, version 0, and dueDate = creation time + 72 hours (the
schema's default `sla.resolutionTime`), whatever the requested priority; the
priority → budget table (urgent 2h, high 8h, medium 24h, low 72h, medium's
24h for an unrecognized key) lives in `calculateSLADueDate` but is not
consulted at creation. -/
theorem createTicket_spec (now : Int) (id : Nat) (title : String)
    (priority : Option Priority) (tags : List String) (createdBy : Nat) :
    (createTicket now id title priority tags createdBy).status = .opened ∧
    (createTicket now id title priority tags createdBy).priority =
      priority.getD .medium ∧
    (createTicket now id title none tags createdBy).priority = .medium ∧
    (createTicket now id title priority tags createdBy).version = 0 ∧
    (createTicket now id title priority tags createdBy).sla.dueDate =
      now + 72 * msPerHour ∧
    slaHoursFor (Priority.toStr .urgent) = 2 ∧ slaHoursFor (Priority.toStr .high) = 8 ∧
    slaHoursFor (Priority.toStr .medium) = 24 ∧ slaHoursFor (Priority.toStr .low) = 72 ∧
    slaHoursFor unrecognizedKey = 24 := by
  refine ⟨rfl, rfl, rfl, rfl, rfl, rfl, rfl, rfl, rfl, by decide⟩

/-- C1: evaluating the code at the failing input. A medium ticket created at
time 0 (dueDate 72h) is patched to priority urgent at hour 10: the update
succeeds but stores `sla.dueDate` still at 72h; the workflow
`change_priority` action likewise leaves it at 72h; the never-called
`updateTicketSLA` helper is the only code that would recompute it — to 2h
from the original creation time. -/
theorem priority_change_keeps_stale_dueDate :
    (patchTicket (10 * msPerHour) .admin 9 0
        { priority := some .urgent } sampleTicket).toOption =
      some { sampleTicket with
             priority := .urgent
             updatedAt := 10 * msPerHour } ∧
    (storedAfterPatch (10 * msPerHour) .admin 9 0
        { priority := some .urgent } sampleTicket).sla.dueDate =
      72 * msPerHour ∧
    (changePriorityAction (10 * msPerHour) .urgent sampleTicket).sla.dueDate =
      72 * msPerHour ∧
    (updateTicketSLA (10 * msPerHour) sampleTicket .urgent).sla.dueDate =
      2 * msPerHour := by
  refine ⟨by decide, rfl, rfl, rfl⟩

/-- C5: evaluating the code at the failing input. `version` is 0 at
creation; a successful `PATCH` (title change, matching expected version 0)
stores the modified document with `version` still 0 — `findByIdAndUpdate`
bypasses the pre-save hook — whereas a `save()`-path mutation of the same
ticket would store version 1. -/
theorem successful_patch_keeps_version :
    sampleTicket.version = 0 ∧
    (patchTicket (2 * msPerHour) .admin 9 0
        { title := some retitledTitle } sampleTicket).toOption =
      some { sampleTicket with
             title := retitledTitle
             updatedAt := 2 * msPerHour } ∧
    (storedAfterPatch (2 * msPerHour) .admin 9 0
        { title := some retitledTitle } sampleTicket).version = 0 ∧
    (save (2 * msPerHour) sampleTicket).version = 1 := by
  refine ⟨rfl, by decide, rfl, rfl⟩

/-- C4: a PATCH whose supplied expected version differs from the stored
version fails with the VersionConflict error (the 409 response, carrying the
current stored version) and the stored ticket is left unchanged in every
field. -/
theorem stale_version_patch_rejected (now : Int) (role : Role) (userId : Nat)
    (reqVersion : Int) (upd : UpdateData) (t : Ticket)
    (hperm : canBeModified t role userId = true)
    (hver : reqVersion ≠ t.version) :
    patchTicket now role userId reqVersion upd t =
      .error (.versionConflict t.version) ∧
    storedAfterPatch now role userId reqVersion upd t = t := by
  have h1 : patchTicket now role userId reqVersion upd t =
      .error (.versionConflict t.version) := by
    unfold patchTicket
    rw [if_neg (by simp [hperm]), if_pos (Ne.symm hver)]
  refine ⟨h1, ?_⟩
  unfold storedAfterPatch
  rw [h1]

/-- Witness for C4 at a concrete stale request (stored version 0, supplied
version 5). -/
theorem stale_version_patch_rejected_witness :
    patchTicket 0 .admin 9 5 {} sampleTicket =
      .error (.versionConflict sampleTicket.version) ∧
    storedAfterPatch 0 .admin 9 5 {} sampleTicket = sampleTicket :=
  stale_version_patch_rejected 0 .admin 9 5 {} sampleTicket rfl (by decide)

/-- When every matched rule's action succeeds, `executeRules` runs them all,
in registry order. -/
theorem executeRulesRun_all_ok (rules : List RuleRun)
    (h : ∀ p ∈ rules, p.matched = true → p.action = .ok ()) :
    executeRulesRun rules =
      ((rules.filter (fun r => r.matched)).map (fun r => r.name), none) := by
  induction rules with
  | nil => rfl
  | cons r rest ih =>
    have ihr := ih (fun p hp hm => h p (List.mem_cons_of_mem _ hp) hm)
    by_cases hm : r.matched = true
    · have ha := h r (List.mem_cons_self _ _) hm
      simp [executeRulesRun, hm, ha, ihr]
    · have hm2 : r.matched = false := by simpa using hm
      simp [executeRulesRun, hm2, ihr]

/-- A matched rule whose action throws ends the `executeRules` loop: the
matched rules before it ran, it ran, and nothing after it runs; the error is
returned as the logged value, not propagated. -/
theorem executeRulesRun_stops_at_error (pre : List RuleRun) (r : RuleRun)
    (post : List RuleRun) (e : String)
    (hm : r.matched = true) (ha : r.action = .error e)
    (hpre : ∀ p ∈ pre, p.matched = true → p.action = .ok ()) :
    executeRulesRun (pre ++ r :: post) =
      ((pre.filter (fun p => p.matched)).map (fun p => p.name) ++ [r.name],
        some e) := by
  induction pre with
  | nil => simp [executeRulesRun, hm, ha]
  | cons p rest ih =>
    have ihr := ih (fun q hq hqm => hpre q (List.mem_cons_of_mem _ hq) hqm)
    by_cases hpm : p.matched = true
    · have hpa := hpre p (List.mem_cons_self _ _) hpm
      simp [executeRulesRun, hpm, hpa, ihr]
    · have hpm2 : p.matched = false := by simpa using hpm
      simp [executeRulesRun, hpm2, ihr]

/-- When every ticket of a scan batch processes cleanly, the whole batch is
processed in order. -/
theorem scanRun_all_ok (ts : List TicketRun)
    (h : ∀ p ∈ ts, p.outcome = .ok ()) :
    scanRun ts = (ts.map (fun p => p.id), none) := by
  induction ts with
  | nil => rfl
  | cons p rest ih =>
    have hp := h p (List.mem_cons_self _ _)
    have ihr := ih (fun q hq => h q (List.mem_cons_of_mem _ hq))
    simp [scanRun, hp, ihr]

/-- A ticket whose processing throws ends the scan: earlier tickets were
processed, later tickets are skipped for this scan; the error is returned as
the logged value, not propagated. -/
theorem scanRun_stops_at_error (pre : List TicketRun) (t : TicketRun)
    (post : List TicketRun) (e : String)
    (ht : t.outcome = .error e) (hpre : ∀ p ∈ pre, p.outcome = .ok ()) :
    scanRun (pre ++ t :: post) = (pre.map (fun p => p.id) ++ [t.id], some e) := by
  induction pre with
  | nil => simp [scanRun, ht]
  | cons p rest ih =>
    have hp := hpre p (List.mem_cons_self _ _)
    have ihr := ih (fun q hq => hpre q (List.mem_cons_of_mem _ hq))
    simp [scanRun, hp, ihr]

/-- C6 counterexample: in `executeRules` a first rule whose action throws
stops the second rule from running (the error is merely logged at loop
level); in a monitor scan, a first ticket whose processing throws stops the
second ticket from being processed. -/
theorem throwing_rule_stops_subsequent_rules :
    executeRulesRun
        [{ name := "first_rule", matched := true, action := .error boomMsg },
         { name := "second_rule", matched := true, action := .ok () }] =
      (["first_rule"], some boomMsg) ∧
    "second_rule" ∉
      (executeRulesRun
        [{ name := "first_rule", matched := true, action := .error boomMsg },
         { name := "second_rule", matched := true, action := .ok () }]).1 ∧
    scanRun [{ id := 1, outcome := .error dbDownMsg },
             { id := 2, outcome := .ok () }] = ([1], some dbDownMsg) ∧
    2 ∉ (scanRun [{ id := 1, outcome := .error dbDownMsg },
                  { id := 2, outcome := .ok () }]).1 := by
  refine ⟨rfl, by decide, rfl, by decide⟩

/-- C6 (amended): fault containment is at batch level, not per item — in
`executeRules` a throwing action is caught and logged by the single `try`
around the loop, so it never propagates to the caller, but it aborts the
remaining rules of that call (all matched rules before the first failing one
run, none after); likewise in a `checkSLAStatus` scan, a per-ticket error is
caught and logged by the `try` around the scan, so it never propagates, but
it aborts the remaining tickets of that scan. -/
theorem batch_level_fault_containment :
    (∀ rules : List RuleRun,
      (∀ p ∈ rules, p.matched = true → p.action = .ok ()) →
      executeRulesRun rules =
        ((rules.filter (fun r => r.matched)).map (fun r => r.name), none)) ∧
    (∀ (pre : List RuleRun) (r : RuleRun) (post : List RuleRun) (e : String),
      r.matched = true → r.action = .error e →
      (∀ p ∈ pre, p.matched = true → p.action = .ok ()) →
      executeRulesRun (pre ++ r :: post) =
        ((pre.filter (fun p => p.matched)).map (fun p => p.name) ++ [r.name],
          some e)) ∧
    (∀ ts : List TicketRun, (∀ p ∈ ts, p.outcome = .ok ()) →
      scanRun ts = (ts.map (fun p => p.id), none)) ∧
    (∀ (pre : List TicketRun) (t : TicketRun) (post : List TicketRun)
      (e : String),
      t.outcome = .error e → (∀ p ∈ pre, p.outcome = .ok ()) →
      scanRun (pre ++ t :: post) =
        (pre.map (fun p => p.id) ++ [t.id], some e)) :=
  ⟨executeRulesRun_all_ok,
   fun pre r post e hm ha hpre =>
     executeRulesRun_stops_at_error pre r post e hm ha hpre,
   scanRun_all_ok,
   fun pre t post e ht hpre => scanRun_stops_at_error pre t post e ht hpre⟩

/-- Witness for the amended C6 at a concrete one-rule registry. -/
theorem batch_level_fault_containment_witness :
    executeRulesRun [{ name := "only_rule", matched := true, action := .ok () }]
      = (["only_rule"], none) := by
  have h := batch_level_fault_containment.1
    [{ name := "only_rule", matched := true, action := Except.ok () }]
    (by
      intro p hp hm
      rw [List.mem_singleton] at hp
      subst hp
      rfl)
  simpa using h

/-- Field bookkeeping of `escalateTicket`: whichever branch the priority
check takes, the result has priority urgent, exactly one appended system
note, `updatedAt` refreshed, every other listed field untouched, and the
admin broadcast notifications. -/
theorem escalateTicket_fields (now : Int) (admins : List Nat) (t : Ticket) :
    (escalateTicket now admins t).1.priority = .urgent ∧
    (escalateTicket now admins t).1.internalNotes =
      t.internalNotes ++ [escalationNote now] ∧
    (escalateTicket now admins t).1.updatedAt = now ∧
    (escalateTicket now admins t).1.id = t.id ∧
    (escalateTicket now admins t).1.createdBy = t.createdBy ∧
    (escalateTicket now admins t).1.assignedTo = t.assignedTo ∧
    (escalateTicket now admins t).1.status = t.status ∧
    (escalateTicket now admins t).1.createdAt = t.createdAt ∧
    (escalateTicket now admins t).2 =
      admins.map (fun a => mkNotif a ticketEscalatedKind (some t.id) now) := by
  by_cases hp : t.priority = .urgent <;>
    simp [escalateTicket, save, hp]

/-- An element read by index is a member of the list. -/
theorem mem_of_getElemOpt {α : Type} {l : List α} {i : Nat} {a : α}
    (h : l[i]? = some a) : a ∈ l := by
  induction l generalizing i with
  | nil => simp at h
  | cons x xs ih =>
    cases i with
    | zero =>
      simp at h
      simp [h]
    | succ j =>
      simp at h
      exact List.mem_cons_of_mem _ (ih h)

/-- A just-escalated ticket has `updatedAt = now`, so it cannot satisfy the
stale-high-priority criterion of the same pass. -/
theorem crit2_escalate_false (now : Int) (admins : List Nat) (t : Ticket) :
    crit2 now (escalateTicket now admins t).1 = false := by
  have hupd : (escalateTicket now admins t).1.updatedAt = now :=
    (escalateTicket_fields now admins t).2.2.1
  have hlt : ¬ ((escalateTicket now admins t).1.updatedAt <
      now - 4 * msPerHour) := by
    rw [hupd]
    simp [msPerHour]
  simp [crit2, decide_eq_false hlt]

/-- C8: on one hourly escalation pass, every ticket that at the start of the
pass is (open, unassigned, created more than 24h ago) or (open/in_progress,
high/urgent, not updated for more than 4h) ends the pass as the result of a
single `escalateTicket` application: priority urgent (the set is skipped when
already urgent, inside `escalateTicket`), exactly one appended internal
system note (author none), and a `ticket_escalated` notification to each
active admin; a ticket matching neither criterion is untouched. A ticket
matching both criteria is still escalated once: its first escalation
refreshes `updatedAt`, so the second query no longer selects it. -/
theorem hourly_escalation_pass (now : Int) (admins : List Nat)
    (store : List Ticket) (i : Nat) (t : Ticket)
    (hget : store[i]? = some t) :
    ((crit1 now t || crit2 now t) = true →
      (checkEscalations now admins store).1[i]? =
        some (escalateTicket now admins t).1 ∧
      (escalateTicket now admins t).1.priority = .urgent ∧
      (escalateTicket now admins t).1.internalNotes =
        t.internalNotes ++ [escalationNote now] ∧
      (escalationNote now).addedBy = none ∧
      (∀ a ∈ admins,
        mkNotif a ticketEscalatedKind (some t.id) now ∈
          (checkEscalations now admins store).2)) ∧
    ((crit1 now t || crit2 now t) = false →
      (checkEscalations now admins store).1[i]? = some t) := by
  have hmem : t ∈ store := mem_of_getElemOpt hget
  have hstore :
      (checkEscalations now admins store).1 =
        (store.map
          (fun u => if crit1 now u then (escalateTicket now admins u).1 else u)).map
          (fun u => if crit2 now u then (escalateTicket now admins u).1 else u) :=
    rfl
  have hnotifs :
      (checkEscalations now admins store).2 =
        (store.filter (crit1 now)).flatMap
          (fun u => (escalateTicket now admins u).2) ++
        ((store.map
            (fun u => if crit1 now u then (escalateTicket now admins u).1 else u)).filter
            (crit2 now)).flatMap
          (fun u => (escalateTicket now admins u).2) :=
    rfl
  constructor
  · intro hq
    refine ⟨?_, (escalateTicket_fields now admins t).1,
      (escalateTicket_fields now admins t).2.1, rfl, ?_⟩
    · rw [hstore, List.getElem?_map, List.getElem?_map, hget]
      by_cases hc1 : crit1 now t = true
      · simp [hc1, crit2_escalate_false]
      · have hc2 : crit2 now t = true := by
          have hor : crit1 now t = true ∨ crit2 now t = true := by
            simpa using hq
          rcases hor with h | h
          · exact absurd h hc1
          · exact h
        simp [hc1, hc2]
    · intro a ha
      rw [hnotifs]
      by_cases hc1 : crit1 now t = true
      · apply List.mem_append_left
        refine List.mem_flatMap.mpr ⟨t, List.mem_filter.mpr ⟨hmem, hc1⟩, ?_⟩
        rw [(escalateTicket_fields now admins t).2.2.2.2.2.2.2.2]
        exact List.mem_map_of_mem _ ha
      · have hc2 : crit2 now t = true := by
          have hor : crit1 now t = true ∨ crit2 now t = true := by
            simpa using hq
          rcases hor with h | h
          · exact absurd h hc1
          · exact h
        apply List.mem_append_right
        refine List.mem_flatMap.mpr ⟨t, List.mem_filter.mpr ⟨?_, hc2⟩, ?_⟩
        · refine List.mem_map.mpr ⟨t, hmem, ?_⟩
          simp [hc1]
        · rw [(escalateTicket_fields now admins t).2.2.2.2.2.2.2.2]
          exact List.mem_map_of_mem _ ha
  · intro hq
    have hc1 : crit1 now t = false := by
      cases h1 : crit1 now t
      · rfl
      · rw [h1] at hq
        simp at hq
    have hc2 : crit2 now t = false := by
      cases h2 : crit2 now t
      · rfl
      · rw [h2] at hq
        simp at hq
    rw [hstore, List.getElem?_map, List.getElem?_map, hget]
    simp [hc1, hc2]

/-- Witness for C8: an open, unassigned ticket created 25 hours before the
pass, with one active admin (user 3). -/
theorem hourly_escalation_pass_witness :
    (checkEscalations (25 * msPerHour) [3] [escSample]).1[0]? =
      some (escalateTicket (25 * msPerHour) [3] escSample).1 ∧
    (escalateTicket (25 * msPerHour) [3] escSample).1.priority = .urgent ∧
    (escalateTicket (25 * msPerHour) [3] escSample).1.internalNotes =
      escSample.internalNotes ++ [escalationNote (25 * msPerHour)] ∧
    (escalationNote (25 * msPerHour)).addedBy = none ∧
    (∀ a ∈ [3],
      mkNotif a ticketEscalatedKind (some escSample.id) (25 * msPerHour) ∈
        (checkEscalations (25 * msPerHour) [3] [escSample]).2) :=
  (hourly_escalation_pass (25 * msPerHour) [3] [escSample] 0 escSample
    rfl).1 (by decide)

/-- C7 counterexample: two tickets of the same creator, both inside the
warning window of two scans 10 minutes apart. The second ticket's warning
becomes the creator's most recent notification, so on the second scan the
first ticket's one-hour dedup check misses its own earlier warning: the
monitor records two `sla_warning` notifications for ticket 1 only 10 minutes
apart, inside the 1-hour dedup window. -/
theorem duplicate_warning_within_window :
    ((c7FinalLog.filter
        (fun n => n.type == slaWarningKind && n.ticketId == some 1)).map
      (fun n => n.createdAt)) = [0, 600000] ∧
    (600000 : Int) - 0 < msPerHour := by
  refine ⟨by decide, by decide⟩

/-- C7 (amended): the dedup check inspects only the creator's single most
recent notification: a warning (breach) is suppressed iff that notification
is an `sla_warning` (`sla_breach`) for this very ticket created within the
last one (two) hours. Hence for a ticket whose creator receives no other
notification traffic, two warning handlings d apart produce one notification
when d < 1h and two when d ≥ 1h, and two breach handlings d apart produce
one when d < 2h and two when d ≥ 2h; interleaved notifications to the same
creator defeat the window. -/
theorem dedup_by_latest_creator_notification (t : Ticket) (t0 d : Int)
    (h : t.assignedTo = none) :
    ((handleSLAWarning (handleSLAWarning [] t0 t) (t0 + d) t).filter
        (fun n => n.type == slaWarningKind && n.ticketId == some t.id)).length
      = (if d < msPerHour then 1 else 2) ∧
    ((handleSLABreach (handleSLABreach [] t0 [] t).1 (t0 + d) []
        (handleSLABreach [] t0 [] t).2).1.filter
        (fun n => n.type == slaBreachKind && n.ticketId == some t.id)).length
      = (if d < 2 * msPerHour then 1 else 2) := by
  have hms : msPerHour = 3600000 := rfl
  constructor
  · have h1 : handleSLAWarning [] t0 t =
        [mkNotif t.createdBy slaWarningKind (some t.id) t0] := by
      simp [handleSLAWarning, hasRecentWarning, latestNotifFor,
        notifySLAWarning, h, mkNotif]
    rw [h1]
    have h2 : hasRecentWarning
        [mkNotif t.createdBy slaWarningKind (some t.id) t0] (t0 + d) t =
        decide (t0 > t0 + d - msPerHour) := by
      simp [hasRecentWarning, latestNotifFor, mkNotif]
    by_cases hd : d < msPerHour
    · have hrec : hasRecentWarning
          [mkNotif t.createdBy slaWarningKind (some t.id) t0] (t0 + d) t =
          true := by
        rw [h2, hms] at *
        rw [decide_eq_true_eq]
        omega
      rw [handleSLAWarning, hrec]
      simp [mkNotif, hd]
    · have hrec : hasRecentWarning
          [mkNotif t.createdBy slaWarningKind (some t.id) t0] (t0 + d) t =
          false := by
        rw [h2, hms] at *
        rw [decide_eq_false_iff_not]
        omega
      rw [handleSLAWarning, hrec]
      simp [notifySLAWarning, mkNotif, h, hd]
  · have hesc1 : (escalateTicket t0 [] t).2 = [] :=
      (escalateTicket_fields t0 [] t).2.2.2.2.2.2.2.2
    have hb1a : (handleSLABreach [] t0 [] t).1 =
        [mkNotif t.createdBy slaBreachKind (some t.id) t0] := by
      simp [handleSLABreach, hasRecentBreach, latestNotifFor,
        notifySLABreach, breachWatchers, h, mkNotif, hesc1]
    have hb1b : (handleSLABreach [] t0 [] t).2 = (escalateTicket t0 [] t).1 := by
      simp [handleSLABreach, hasRecentBreach, latestNotifFor]
    rw [hb1a, hb1b]
    have hid : (escalateTicket t0 [] t).1.id = t.id :=
      (escalateTicket_fields t0 [] t).2.2.2.1
    have hcb : (escalateTicket t0 [] t).1.createdBy = t.createdBy :=
      (escalateTicket_fields t0 [] t).2.2.2.2.1
    have hat : (escalateTicket t0 [] t).1.assignedTo = none := by
      rw [(escalateTicket_fields t0 [] t).2.2.2.2.2.1]
      exact h
    have h2 : hasRecentBreach
        [mkNotif t.createdBy slaBreachKind (some t.id) t0] (t0 + d)
        (escalateTicket t0 [] t).1 =
        decide (t0 > t0 + d - 2 * msPerHour) := by
      simp [hasRecentBreach, latestNotifFor, mkNotif, hid, hcb]
    by_cases hd : d < 2 * msPerHour
    · have hrec : hasRecentBreach
          [mkNotif t.createdBy slaBreachKind (some t.id) t0] (t0 + d)
          (escalateTicket t0 [] t).1 = true := by
        rw [h2, hms] at *
        rw [decide_eq_true_eq]
        omega
      rw [handleSLABreach, hrec]
      simp [mkNotif, hd]
    · have hrec : hasRecentBreach
          [mkNotif t.createdBy slaBreachKind (some t.id) t0] (t0 + d)
          (escalateTicket t0 [] t).1 = false := by
        rw [h2, hms] at *
        rw [decide_eq_false_iff_not]
        omega
      rw [handleSLABreach, hrec]
      have hesc2 : (escalateTicket (t0 + d) [] ((escalateTicket t0 [] t).1)).2
          = [] :=
        (escalateTicket_fields (t0 + d) [] ((escalateTicket t0 [] t).1)).2.2.2.2.2.2.2.2
      simp [notifySLABreach, breachWatchers, mkNotif, hat, hid, hcb, hd, hesc2]

/-- Witness for the amended C7: the sample ticket warned twice 10 minutes
apart yields a single warning notification. -/
theorem dedup_by_latest_creator_notification_witness :
    ((handleSLAWarning (handleSLAWarning [] 0 sampleTicket) (0 + 600000)
        sampleTicket).filter
        (fun n => n.type == slaWarningKind &&
          n.ticketId == some sampleTicket.id)).length =
      (if (600000 : Int) < msPerHour then 1 else 2) ∧
    ((handleSLABreach (handleSLABreach [] 0 [] sampleTicket).1 (0 + 600000) []
        (handleSLABreach [] 0 [] sampleTicket).2).1.filter
        (fun n => n.type == slaBreachKind &&
          n.ticketId == some sampleTicket.id)).length =
      (if (600000 : Int) < 2 * msPerHour then 1 else 2) :=
  dedup_by_latest_creator_notification sampleTicket 0 600000 rfl

/-- C10: in `executeRules`, a rule with no `trigger` field passes the
trigger filter for every trigger value, and consequently all four default
rules (registered without a trigger) are evaluated on every call, whatever
trigger name is passed. -/
theorem default_rules_evaluated_on_every_trigger :
    (∀ trigger : String, triggerMatches none trigger = true) ∧
    (∀ trigger : String,
      evaluatedRules defaultRules trigger = defaultRuleNames) := by
  exact ⟨fun _ => rfl, fun _ => rfl⟩

end Sillicon
